import Mathlib

/-!
Verification of the Terminator Telegram moderation bot
(`src/unnamed/part_000`, webhook revision with database memory).

The development shallowly embeds the trigger-and-context-assembly
pipeline: the transcript builder that merges consecutive same-role
turns, the context fetcher with its defaults, the persona prompt
composer, and the message handler's orchestration, with persistence
and delivery side effects recorded as an explicit event trace.
-/

namespace Terminator

/-- A stored `(role, content)` record as returned by the
`chat_memory` select of `role, content`. -/
structure ChatRecord where
  role : String
  content : String
deriving DecidableEq

/-- One model-facing transcript entry `{role, parts:[{text}]}`
(the single `parts` element is inlined as `text`). -/
structure Entry where
  role : String
  text : String
deriving DecidableEq

/-- One merge-or-push step of the transcript builder: mirrors the loop
body at lines 106-113 (for history records) and the new-message step at
lines 122-127 of `generateAIResponse`.  If the output is non-empty and
its last entry has the same role, the content is appended to that last
entry's text after a blank line; otherwise a fresh entry is pushed. -/
def pushMsg (contents : List Entry) (role content : String) : List Entry :=
  match contents.getLast? with
  | some last =>
      if last.role = role then
        contents.dropLast ++ [{ role := last.role, text := last.text ++ "\n\n" ++ content }]
      else
        contents ++ [{ role := role, text := content }]
  | none => [{ role := role, text := content }]

/-- The transcript builder: fold the history through `pushMsg`
(lines 106-113), then apply the same merge-or-append rule to the new
inbound text under role `"user"` (lines 122-127). -/
def buildContents (history : List ChatRecord) (text : String) : List Entry :=
  pushMsg (history.foldl (fun acc m => pushMsg acc m.role m.content) []) "user" text

/-- Blank-line join of a list of strings, the shape produced by the
builder's merging. -/
def joinS : List String → String
  | [] => ""
  | [s] => s
  | s :: t :: rest => s ++ "\n\n" ++ joinS (t :: rest)

/-- Blank-line join of the texts of a transcript. -/
def joinTexts (l : List Entry) : String :=
  joinS (l.map (fun e => e.text))

/-- JS `String.prototype.toLowerCase`, embedded at the character level. -/
def jsToLower (s : String) : String := ⟨s.data.map Char.toLower⟩

/-- JS `String.prototype.startsWith`, embedded as a character-list
prefix test. -/
def jsStartsWith (s pre : String) : Bool := pre.data.isPrefixOf s.data

/-- The `bot_personality` row / default persona shape (line 83). -/
structure PersonaConfig where
  tone : String
  aggression_level : Int
  response_style : String
  custom_phrases : List String
deriving DecidableEq

/-- Defaults used when no personality row is stored (line 83). -/
def defaultPersona : PersonaConfig :=
  { tone := "cold", aggression_level := 5, response_style := "military", custom_phrases := [] }

/-- The slice of a `users` row the prompt composer reads (line 84). -/
structure UserInfo where
  risk_score : Int
  status : String
deriving DecidableEq

/-- Defaults used when no user row is stored (line 84). -/
def defaultUserInfo : UserInfo := { risk_score := 0, status := "active" }

/-- A `chat_memory` table row. -/
structure StoredTurn where
  user_id : Int
  role : String
  content : String
  created_at : Int
deriving DecidableEq

/-- A `users` table row. -/
structure UserRow where
  user_id : Int
  username : String
  risk_score : Int
  status : String
deriving DecidableEq

/-- A `groups` table row; `ai_mode` may be null. -/
structure GroupRow where
  group_id : Int
  ai_mode : Option Int
deriving DecidableEq

/-- The Supabase persistence layer: its tables, plus a `failing` flag
modelling a layer whose every call returns an error (Supabase calls
resolve with `\x7bdata: null, error\x7d` instead of throwing). -/
structure Db where
  chat_memory : List StoredTurn
  bot_personality : Option PersonaConfig
  users : List UserRow
  groups : List GroupRow
  failing : Bool
deriving DecidableEq

/-- Rows produced by the history select (lines 92-96): `user_id`
equality filter, `created_at ≥ cutoff` filter, ordered ascending by
`created_at`. -/
def memRows (d : Db) (userId cutoff : Int) : List StoredTurn :=
  (d.chat_memory.filter
      (fun r => decide (r.user_id = userId ∧ cutoff ≤ r.created_at))).mergeSort
    (fun a b => decide (a.created_at ≤ b.created_at))

/-- The `chat_memory` select of `role, content` (lines 92-96); `none`
models an errored call (`data: null`). -/
def selMemory (d : Db) (userId cutoff : Int) : Option (List ChatRecord) :=
  if d.failing then none
  else some ((memRows d userId cutoff).map (fun r => { role := r.role, content := r.content }))

/-- The `bot_personality` singleton select with `maybeSingle` (line 97). -/
def selPersona (d : Db) : Option PersonaConfig :=
  if d.failing then none else d.bot_personality

/-- The `users` select by `user_id` with `maybeSingle` (line 98, line 230). -/
def selUser (d : Db) (userId : Int) : Option UserRow :=
  if d.failing then none else d.users.find? (fun r => decide (r.user_id = userId))

/-- The `groups` select of `ai_mode` by `group_id` with `maybeSingle`
(line 222). -/
def selGroup (d : Db) (groupId : Int) : Option GroupRow :=
  if d.failing then none else d.groups.find? (fun r => decide (r.group_id = groupId))

/-- Rows matched by the retention delete (lines 166-169):
`created_at < cutoff` and `user_id = userId`. -/
def deletedRows (d : Db) (userId cutoff : Int) : List StoredTurn :=
  d.chat_memory.filter (fun r => decide (r.created_at < cutoff ∧ r.user_id = userId))

/-- Milliseconds in 7 days. -/
def msPerWeek : Int := 604800000

/-- `sevenDaysAgo` (lines 86-87): the current date moved back 7 days,
on an epoch-millisecond clock. -/
def cutoffOf (now : Int) : Int := now - msPerWeek

/-- The Context Fetcher (lines 81-103): defaults first, then — when a
persistence client exists — the three concurrent selects, each result
overriding its default only when data came back. -/
def fetchContext (db : Option Db) (userId cutoff : Int) :
    List ChatRecord × PersonaConfig × UserInfo :=
  match db with
  | none => ([], defaultPersona, defaultUserInfo)
  | some d =>
      let history := (selMemory d userId cutoff).getD []
      let botPersona := (selPersona d).getD defaultPersona
      let userInfo :=
        match selUser d userId with
        | some r => { risk_score := r.risk_score, status := r.status }
        | none => defaultUserInfo
      (history, botPersona, userInfo)

/-- The dynamic system prompt (lines 130-149). -/
def systemPrompt (botPersona : PersonaConfig) (userInfo : UserInfo) (role : String) : String :=
  "\nYou are TERMINATOR, a powerful AI Telegram moderator.\n\n" ++
  "Current Persona Settings:\n" ++
  "- Tone: " ++ botPersona.tone ++ "\n" ++
  "- Aggression Level: " ++ toString botPersona.aggression_level ++ "/10\n" ++
  "- Style: " ++ botPersona.response_style ++ "\n" ++
  (if botPersona.custom_phrases.length > 0 then
    "- Custom Catchphrases to use occasionally: " ++ String.intercalate ", " botPersona.custom_phrases
  else "") ++
  "\n\nUser Context:\n" ++
  "- Role: " ++ role ++ "\n" ++
  "- Risk Score: " ++ toString userInfo.risk_score ++ " (Higher = more suspicious/dangerous)\n" ++
  "- Status: " ++ userInfo.status ++ "\n\n" ++
  "Rules:\n" ++
  "- Reply in the same language as the user.\n" ++
  "- If user is owner → be respectful.\n" ++
  "- If user is member with high risk score → be extremely dominant and threatening.\n" ++
  "- If user is member with low risk score → be strict but standard.\n"

/-- The opaque language model: from a system instruction and a
transcript, either generated text or a raised error message. -/
def ModelFn : Type := String → List Entry → Except String String

/-- The diagnostic reply built in the catch block (line 177). -/
def errReply (e : String) : String :=
  "Error processing query. My neural net is temporarily disrupted.\n\n[DEBUG REASON]: " ++ e

/-- Side effects of the pipeline, recorded in issuance order. -/
inductive Ev where
  | typing
  | insertGroup (group_id : Int)
  | insertUser (user_id : Int) (username : String)
  | fetchCtx (user_id : Int) (cutoff : Int)
  | insertTurn (user_id : Int) (role : String) (content : String)
  | modelCall (prompt : String) (contents : List Entry)
  | deleteOld (user_id : Int) (cutoff : Int)
  | deliver (text : String)
  | insertLog (user_id : Int) (group_id : Int) (text : String)
deriving DecidableEq

/-- The function `generateAIResponse` (lines 78-179): returns the reply text and the
trace of issued side effects, in program order — context fetch, then
the fire-and-forget save of the inbound turn, then the model call,
then (on success) the fire-and-forget save of the reply and the
retention delete. -/
def generateAIResponse (model : Option ModelFn) (db : Option Db) (now : Int)
    (userId : Int) (text : String) (role : String) : String × List Ev :=
  match model with
  | none => ("System Offline: AI core not initialized.", [])
  | some fn =>
      let cutoff := cutoffOf now
      let fetched := fetchContext db userId cutoff
      let preEvents : List Ev :=
        match db with
        | some _ => [Ev.fetchCtx userId cutoff, Ev.insertTurn userId "user" text]
        | none => []
      let contents := buildContents fetched.1 text
      let prompt := systemPrompt fetched.2.1 fetched.2.2 role
      match fn prompt contents with
      | Except.ok replyText =>
          (replyText,
            preEvents ++ [Ev.modelCall prompt contents] ++
              (match db with
               | some _ => [Ev.insertTurn userId "model" replyText, Ev.deleteOld userId cutoff]
               | none => []))
      | Except.error e => (errReply e, preEvents ++ [Ev.modelCall prompt contents])

/-- An inbound Telegram `text` message event as the handler reads it. -/
structure MsgCtx where
  chatType : String
  fromId : Int
  chatId : Int
  msgText : Option String
  caption : Option String
  replyToFromId : Option Int
  username : Option String
  botId : Int
deriving DecidableEq

/-- JS `ctx.message.text || ctx.message.caption || ""` (line 202), with
falsy fall-through on the empty string. -/
def textOf (ctx : MsgCtx) : String :=
  let t := ctx.msgText.getD ""
  if t ≠ "" then t else ctx.caption.getD ""

/-- JS `ctx.from.username || "Unknown"` (line 232). -/
def usernameOf (ctx : MsgCtx) : String :=
  let u := ctx.username.getD ""
  if u ≠ "" then u else "Unknown"

/-- The backgrounded async task of the handler (lines 219-252): the
group opt-out lookup with its upsert, the user upsert, generation,
delivery quoting the message, and the usage log. The opt-out return at
line 223 aborts before any of those side effects. -/
def backgroundTask (ownerId : Int) (model : Option ModelFn) (db : Option Db) (now : Int)
    (ctx : MsgCtx) : List Ev :=
  let userId := ctx.fromId
  let groupId := ctx.chatId
  let text := textOf ctx
  let role := if userId = ownerId then "owner" else "member"
  let gen := generateAIResponse model db now userId text role
  let deliverPhase : List Ev :=
    gen.2 ++
      (if gen.1 ≠ "" then
        Ev.deliver gen.1 ::
          (match db with
           | some _ => [Ev.insertLog userId groupId text]
           | none => [])
      else [])
  match db with
  | some d =>
      let userPhase : List Ev :=
        match selUser d userId with
        | some _ => []
        | none => [Ev.insertUser userId (usernameOf ctx)]
      (match selGroup d groupId with
       | some g =>
           if g.ai_mode = some 0 then []
           else userPhase ++ deliverPhase
       | none => Ev.insertGroup groupId :: (userPhase ++ deliverPhase))
  | none => deliverPhase

/-- The `bot.on("text")` handler (lines 197-256): the private-chat and
empty-text gates, the trigger check, then the typing action followed by
the detached background task. Returns the trace of issued side
effects. -/
def handleText (ownerId : Int) (model : Option ModelFn) (db : Option Db) (now : Int)
    (ctx : MsgCtx) : List Ev :=
  if ctx.chatType = "private" then []
  else
    let text := textOf ctx
    if text = "" then []
    else
      let isReplyToMe : Bool := ctx.replyToFromId == some ctx.botId
      let startsWithTrigger : Bool := jsStartsWith (jsToLower text) "terminator"
      if !startsWithTrigger && !isReplyToMe then []
      else Ev.typing :: backgroundTask ownerId model db now ctx

/-- Is an event a reply delivery? -/
def isDeliver : Ev → Bool
  | Ev.deliver _ => true
  | _ => false

/-- Is an event one of the persistence writes named by the ordering
property: a conversation-turn write, a usage-log write, or the
retention delete? -/
def isPersist : Ev → Bool
  | Ev.insertTurn _ _ _ => true
  | Ev.insertLog _ _ _ => true
  | Ev.deleteOld _ _ => true
  | _ => false

/-- True exactly when no persistence write (turn write, usage log,
retention delete) is issued before the first delivery attempt. -/
def noPersistBeforeDeliver : List Ev → Bool
  | [] => true
  | e :: rest =>
      if isDeliver e then true
      else if isPersist e then false
      else noPersistBeforeDeliver rest

/-- Is an event a usage-log write? -/
def isLog : Ev → Bool
  | Ev.insertLog _ _ _ => true
  | _ => false

/-- True exactly when no usage-log write is issued before the first
delivery attempt. -/
def logAfterDeliver : List Ev → Bool
  | [] => true
  | e :: rest =>
      if isDeliver e then true
      else if isLog e then false
      else logAfterDeliver rest

/-- The gate of the message handler, as the spec phrases it: not a
private chat, non-empty text (after the caption fallback), and either
the lowercased text starts with "terminator" or the message replies to
this bot's own identity. -/
def gatePasses (ctx : MsgCtx) : Prop :=
  ctx.chatType ≠ "private" ∧ textOf ctx ≠ "" ∧
    (jsStartsWith (jsToLower (textOf ctx)) "terminator" = true ∨
      ctx.replyToFromId = some ctx.botId)

instance (ctx : MsgCtx) : Decidable (gatePasses ctx) := by
  unfold gatePasses
  infer_instance

/-- The model stub that always raises. -/
def fnErr : ModelFn := fun _ _ => Except.error "quota exceeded"

/-- The model stub that always answers. -/
def fnOK : ModelFn := fun _ _ => Except.ok "TARGET ACQUIRED"

/-- A private-chat message event carrying the trigger word. -/
def ctxPriv : MsgCtx :=
  { chatType := "private", fromId := 10, chatId := 77, msgText := some "terminator hello",
    caption := none, replyToFromId := none, username := none, botId := 99 }

/-- A group message event carrying the trigger word. -/
def ctxGroup : MsgCtx :=
  { chatType := "group", fromId := 10, chatId := -100, msgText := some "terminator status report",
    caption := none, replyToFromId := none, username := some "alice", botId := 99 }

/-- A configured, healthy, empty persistence layer. -/
def dbEmpty : Db :=
  { chat_memory := [], bot_personality := none, users := [], groups := [], failing := false }

/-- A persistence layer every one of whose calls fails. -/
def dbFail : Db :=
  { chat_memory := [], bot_personality := none, users := [], groups := [], failing := true }

/-- A persistence layer whose GroupConfig for the test group has
ai_mode = 0. -/
def dbOptOut : Db :=
  { chat_memory := [], bot_personality := none, users := [],
    groups := [{ group_id := -100, ai_mode := some 0 }], failing := false }

/-- A stored turn lying exactly on the retention cutoff. -/
def turn0 : StoredTurn := { user_id := 5, role := "user", content := "hi", created_at := 100 }

/-- A persistence layer holding only `turn0`. -/
def dbRet : Db :=
  { chat_memory := [turn0], bot_personality := none, users := [], groups := [],
    failing := false }

end Terminator

namespace Terminator

lemma pushMsg_nil (r c : String) : pushMsg [] r c = [{ role := r, text := c }] := rfl

lemma pushMsg_concat (l : List Entry) (e : Entry) (r c : String) :
    pushMsg (l ++ [e]) r c =
      if e.role = r then
        l ++ [{ role := e.role, text := e.text ++ "\n\n" ++ c }]
      else
        (l ++ [e]) ++ [{ role := r, text := c }] := by
  simp [pushMsg, List.getLast?_concat, List.dropLast_concat]

lemma pushMsg_ne_nil (acc : List Entry) (r c : String) : pushMsg acc r c ≠ [] := by
  rcases acc.eq_nil_or_concat with rfl | ⟨l, e, rfl⟩
  · simp [pushMsg_nil]
  · rw [List.concat_eq_append, pushMsg_concat]
    split <;> simp

lemma foldl_pushMsg_ne_nil (h : List ChatRecord) (acc : List Entry) (hacc : acc ≠ []) :
    h.foldl (fun a m => pushMsg a m.role m.content) acc ≠ [] := by
  induction h generalizing acc with
  | nil => simpa using hacc
  | cons m rest ih => exact ih _ (pushMsg_ne_nil acc m.role m.content)

/-- `pushMsg` preserves the no-two-adjacent-equal-roles invariant. -/
lemma pushMsg_chain (acc : List Entry) (r c : String)
    (h : acc.Chain' (fun a b => a.role ≠ b.role)) :
    (pushMsg acc r c).Chain' (fun a b => a.role ≠ b.role) := by
  rcases acc.eq_nil_or_concat with rfl | ⟨l, e, rfl⟩
  · simp [pushMsg_nil]
  · rw [List.concat_eq_append] at h ⊢
    rw [pushMsg_concat]
    rw [List.chain'_append] at h
    obtain ⟨hl, -, hlast⟩ := h
    split
    · rw [List.chain'_append]
      refine ⟨hl, by simp, ?_⟩
      intro x hx y hy
      simp at hy
      subst hy
      exact hlast x hx e (by simp)
    · rename_i hne
      rw [List.chain'_append]
      refine ⟨?_, by simp, ?_⟩
      · rw [List.chain'_append]
        exact ⟨hl, by simp, hlast⟩
      · intro x hx y hy
        simp [List.getLast?_concat] at hx
        simp at hy
        subst hx; subst hy
        simpa using hne

lemma foldl_pushMsg_chain (h : List ChatRecord) (acc : List Entry)
    (hacc : acc.Chain' (fun a b => a.role ≠ b.role)) :
    (h.foldl (fun a m => pushMsg a m.role m.content) acc).Chain'
      (fun a b => a.role ≠ b.role) := by
  induction h generalizing acc with
  | nil => simpa using hacc
  | cons m rest ih => exact ih _ (pushMsg_chain acc m.role m.content hacc)

lemma joinS_cons (s : String) (l : List String) :
    joinS (s :: l) = if l = [] then s else s ++ "\n\n" ++ joinS l := by
  cases l <;> simp [joinS]

lemma joinS_concat (l : List String) (s : String) :
    joinS (l ++ [s]) = if l = [] then s else joinS l ++ "\n\n" ++ s := by
  induction l with
  | nil => simp [joinS]
  | cons a t ih =>
      rw [List.cons_append, joinS_cons, joinS_cons]
      rcases t with - | ⟨b, t'⟩
      · simp [joinS]
      · simp only [List.cons_append] at ih ⊢
        simp only [ih]
        simp [String.append_assoc]

lemma joinTexts_pushMsg (acc : List Entry) (r c : String) :
    joinTexts (pushMsg acc r c) =
      if acc = [] then c else joinTexts acc ++ "\n\n" ++ c := by
  rcases acc.eq_nil_or_concat with rfl | ⟨l, e, rfl⟩
  · simp [pushMsg_nil, joinTexts, joinS]
  · rw [List.concat_eq_append, pushMsg_concat]
    have hne : l ++ [e] ≠ [] := by simp
    split
    · simp only [joinTexts, List.map_append, List.map_cons, List.map_nil]
      rw [joinS_concat, joinS_concat]
      rcases l with - | ⟨a, l'⟩
      · simp [hne, String.append_assoc]
      · simp [String.append_assoc]
    · simp only [joinTexts, List.map_append, List.map_cons, List.map_nil]
      rw [joinS_concat, joinS_concat]
      simp [hne]

lemma joinTexts_foldl (h : List ChatRecord) (acc : List Entry) :
    joinTexts (h.foldl (fun a m => pushMsg a m.role m.content) acc) =
      if acc = [] then joinS (h.map (fun m => m.content))
      else if h = [] then joinTexts acc
      else joinTexts acc ++ "\n\n" ++ joinS (h.map (fun m => m.content)) := by
  induction h generalizing acc with
  | nil =>
      rcases acc with - | ⟨a, acc'⟩
      · simp [joinTexts, joinS]
      · simp
  | cons m rest ih =>
      simp only [List.foldl_cons]
      rw [ih (pushMsg acc m.role m.content)]
      have hne := pushMsg_ne_nil acc m.role m.content
      rw [joinTexts_pushMsg]
      rcases eq_or_ne acc [] with rfl | hacc
      · simp only [if_pos rfl, if_neg hne, List.map_cons]
        rw [joinS_cons]
        rcases eq_or_ne rest [] with rfl | hrest
        · simp
        · simp [hrest, List.map_eq_nil_iff]
      · simp only [if_neg hacc, if_neg hne, List.map_cons]
        rw [joinS_cons]
        rcases eq_or_ne rest [] with rfl | hrest
        · simp
        · simp [hrest, List.map_eq_nil_iff, String.append_assoc]

lemma foldl_pushMsg_nil_ne_nil (h : List ChatRecord) (hh : h ≠ []) :
    h.foldl (fun a m => pushMsg a m.role m.content) [] ≠ [] := by
  rcases h with - | ⟨m, rest⟩
  · exact absurd rfl hh
  · simpa using foldl_pushMsg_ne_nil rest _ (pushMsg_ne_nil [] m.role m.content)

/-- C1: for every history sequence of (role, content) records and every
new inbound text, the transcript produced by the Transcript Builder
never contains two consecutive entries with equal role. -/
theorem transcript_roles_alternate (history : List ChatRecord) (text : String) :
    (buildContents history text).Chain' (fun a b => a.role ≠ b.role) :=
  pushMsg_chain _ "user" text (foldl_pushMsg_chain history [] (by simp))

/-- C2: for the history [(user,"a"), (user,"b"), (model,"c")] and new
inbound text "d", the Transcript Builder produces exactly
[(user,"a\n\nb"), (model,"c"), (user,"d")]: consecutive same-role
records merge with a blank-line separator and the new text becomes the
final user entry. -/
theorem transcript_merge_example :
    buildContents
        [{ role := "user", content := "a" }, { role := "user", content := "b" },
          { role := "model", content := "c" }] "d" =
      [{ role := "user", text := "a\n\nb" }, { role := "model", text := "c" },
        { role := "user", text := "d" }] := by
  decide

/-- C10: the Transcript Builder preserves content — joining the output
entries' texts with the blank-line separator equals joining the history
records' contents, in order, followed by the new text; nothing is
dropped, duplicated, or reordered. -/
theorem transcript_preserves_content (history : List ChatRecord) (text : String) :
    joinTexts (buildContents history text) =
      joinS (history.map (fun m => m.content) ++ [text]) := by
  unfold buildContents
  rcases eq_or_ne history [] with rfl | hh
  · simp [joinTexts_pushMsg, joinS]
  · rw [joinTexts_pushMsg, if_neg (foldl_pushMsg_nil_ne_nil history hh),
      joinTexts_foldl]
    simp [hh, List.map_eq_nil_iff, joinS_concat]

/-- C8: when the model invocation raises, the failure is caught locally
and `generateAIResponse` returns the user-visible diagnostic string
embedding the raw failure reason; being a total function it propagates
no pipeline-level error. -/
theorem model_failure_diagnostic (fn : ModelFn) (db : Option Db) (now userId : Int)
    (text role e : String)
    (hfail : ∀ p c, fn p c = Except.error e) :
    (generateAIResponse (some fn) db now userId text role).1 =
      "Error processing query. My neural net is temporarily disrupted.\n\n[DEBUG REASON]: "
        ++ e := by
  simp only [generateAIResponse, hfail]
  rfl

theorem model_failure_diagnostic_witness :
    (generateAIResponse (some fnErr) none 0 5 "terminator hi" "member").1 =
      "Error processing query. My neural net is temporarily disrupted.\n\n[DEBUG REASON]: "
        ++ "quota exceeded" :=
  model_failure_diagnostic fnErr none 0 5 "terminator hi" "member" "quota exceeded"
    (fun _ _ => rfl)

lemma handleText_cons_of_gate (ownerId : Int) (model : Option ModelFn) (db : Option Db)
    (now : Int) (ctx : MsgCtx) (hg : gatePasses ctx) :
    handleText ownerId model db now ctx =
      Ev.typing :: backgroundTask ownerId model db now ctx := by
  obtain ⟨h1, h2, h3⟩ := hg
  have hcond : (!(jsStartsWith (jsToLower (textOf ctx)) "terminator") &&
      !(ctx.replyToFromId == some ctx.botId)) = false := by
    rcases h3 with h | h
    · simp [h]
    · simp [h]
  simp [handleText, if_neg h1, if_neg h2, hcond]

lemma handleText_nil_of_not_gate (ownerId : Int) (model : Option ModelFn) (db : Option Db)
    (now : Int) (ctx : MsgCtx) (hg : ¬ gatePasses ctx) :
    handleText ownerId model db now ctx = [] := by
  by_cases h1 : ctx.chatType = "private"
  · simp [handleText, h1]
  · by_cases h2 : textOf ctx = ""
    · simp [handleText, h1, h2]
    · have h3 : ¬(jsStartsWith (jsToLower (textOf ctx)) "terminator" = true ∨
          ctx.replyToFromId = some ctx.botId) := fun h => hg ⟨h1, h2, h⟩
      have ha : jsStartsWith (jsToLower (textOf ctx)) "terminator" = false := by
        simpa using (not_or.mp h3).1
      have hb : (ctx.replyToFromId == some ctx.botId) = false :=
        beq_eq_false_iff_ne.mpr (not_or.mp h3).2
      simp [handleText, h1, h2, ha, hb]

/-- C3: the Trigger Evaluator gates exactly as specified — a
private-chat message is never auto-answered, an empty text (after the
caption fallback) is ignored, and otherwise the pipeline engages if and
only if the lowercased text starts with "terminator" or the message
replies to a message sent by this bot's own numeric identity. -/
theorem trigger_gating (ownerId : Int) (model : Option ModelFn) (db : Option Db)
    (now : Int) (ctx : MsgCtx) :
    (handleText ownerId model db now ctx = [] ↔ ¬ gatePasses ctx) ∧
    (Ev.typing ∈ handleText ownerId model db now ctx ↔ gatePasses ctx) := by
  by_cases hg : gatePasses ctx
  · rw [handleText_cons_of_gate ownerId model db now ctx hg]
    constructor
    · constructor
      · intro h; exact absurd h (by simp)
      · intro hng; exact absurd hg hng
    · constructor
      · intro _; exact hg
      · intro _; exact List.mem_cons_self _ _
  · rw [handleText_nil_of_not_gate ownerId model db now ctx hg]
    constructor
    · constructor
      · intro _; exact hg
      · intro _; rfl
    · constructor
      · intro h; exact absurd h (by simp)
      · intro h; exact absurd h hg

theorem trigger_gating_witness : handleText 1 none none 0 ctxPriv = [] :=
  (trigger_gating 1 none none 0 ctxPriv).1.mpr (by decide)

/-- C4 counterexample: with a configured persistence layer, the handler
issues the inbound conversation-turn write (and later the outbound-turn
write and the retention delete) before the reply delivery is attempted,
so the claimed deliver-before-any-persist ordering is false on this
concrete event. -/
theorem deliver_before_persist_counterexample :
    noPersistBeforeDeliver (handleText 1 (some fnOK) (some dbEmpty) 0 ctxGroup) = false := by
  decide

lemma logAfterDeliver_cons_safe (e : Ev) (l : List Ev)
    (hd : isDeliver e = false) (hl : isLog e = false) :
    logAfterDeliver (e :: l) = logAfterDeliver l := by
  simp [logAfterDeliver, hd, hl]

lemma logAfterDeliver_append_safe (l m : List Ev)
    (h : ∀ e ∈ l, isDeliver e = false ∧ isLog e = false) :
    logAfterDeliver (l ++ m) = logAfterDeliver m := by
  induction l with
  | nil => rfl
  | cons e t ih =>
      rw [List.cons_append, logAfterDeliver_cons_safe e _ (h e (by simp)).1 (h e (by simp)).2]
      exact ih (fun x hx => h x (by simp [hx]))

lemma gen_events_safe (model : Option ModelFn) (db : Option Db) (now userId : Int)
    (text role : String) :
    ∀ e ∈ (generateAIResponse model db now userId text role).2,
      isDeliver e = false ∧ isLog e = false := by
  intro e he
  rcases model with - | fn
  · simp [generateAIResponse] at he
  · simp only [generateAIResponse] at he
    rcases db with - | d
    · split at he
      · simp at he
        subst he
        exact ⟨rfl, rfl⟩
      · simp at he
        subst he
        exact ⟨rfl, rfl⟩
    · split at he
      · simp at he
        rcases he with rfl | rfl | rfl | rfl | rfl <;> exact ⟨rfl, rfl⟩
      · simp at he
        rcases he with rfl | rfl | rfl <;> exact ⟨rfl, rfl⟩

lemma deliverTail_log_after (s : String) (rest : List Ev) :
    logAfterDeliver (if s ≠ "" then Ev.deliver s :: rest else []) = true := by
  split
  · rfl
  · rfl

lemma userPhase_safe (o : Option UserRow) (uid : Int) (un : String) :
    ∀ e ∈ (match o with
            | some _ => ([] : List Ev)
            | none => [Ev.insertUser uid un]),
      isDeliver e = false ∧ isLog e = false := by
  cases o <;> simp [isDeliver, isLog]

lemma logAfterDeliver_up_gen_tail (up : List Ev)
    (hup : ∀ e ∈ up, isDeliver e = false ∧ isLog e = false) (genEvs : List Ev)
    (hgen : ∀ e ∈ genEvs, isDeliver e = false ∧ isLog e = false) (tail : List Ev)
    (htail : logAfterDeliver tail = true) :
    logAfterDeliver (up ++ (genEvs ++ tail)) = true := by
  rw [logAfterDeliver_append_safe _ _ hup, logAfterDeliver_append_safe _ _ hgen]
  exact htail

lemma backgroundTask_log_after (ownerId : Int) (model : Option ModelFn) (db : Option Db)
    (now : Int) (ctx : MsgCtx) :
    logAfterDeliver (backgroundTask ownerId model db now ctx) = true := by
  rcases db with - | d
  · simp only [backgroundTask]
    rw [logAfterDeliver_append_safe _ _
      (gen_events_safe model none now ctx.fromId (textOf ctx) _)]
    exact deliverTail_log_after _ _
  · simp only [backgroundTask]
    split
    · split
      · rfl
      · exact logAfterDeliver_up_gen_tail _ (userPhase_safe _ _ _) _
          (gen_events_safe model (some d) now ctx.fromId (textOf ctx) _) _
          (deliverTail_log_after _ _)
    · rw [logAfterDeliver_cons_safe (Ev.insertGroup ctx.chatId) _ rfl rfl]
      exact logAfterDeliver_up_gen_tail _ (userPhase_safe _ _ _) _
        (gen_events_safe model (some d) now ctx.fromId (textOf ctx) _) _
        (deliverTail_log_after _ _)

/-- C4 amended: the usage-log write is the only persistence step issued
after delivery; for every message event no usage-log write is issued
before the reply delivery is attempted, while the conversation-turn
writes and the retention delete are fire-and-forget steps issued before
delivery. -/
theorem usage_log_after_deliver (ownerId : Int) (model : Option ModelFn) (db : Option Db)
    (now : Int) (ctx : MsgCtx) :
    logAfterDeliver (handleText ownerId model db now ctx) = true := by
  by_cases hg : gatePasses ctx
  · rw [handleText_cons_of_gate ownerId model db now ctx hg,
      logAfterDeliver_cons_safe Ev.typing _ rfl rfl]
    exact backgroundTask_log_after ownerId model db now ctx
  · rw [handleText_nil_of_not_gate ownerId model db now ctx hg]
    rfl

lemma fetchContext_failing (d : Db) (hfail : d.failing = true) (userId cutoff : Int) :
    fetchContext (some d) userId cutoff = ([], defaultPersona, defaultUserInfo) := by
  simp [fetchContext, selMemory, selPersona, selUser, hfail]

lemma buildContents_nil (text : String) :
    buildContents [] text = [{ role := "user", text := text }] := rfl

lemma gen_failing (d : Db) (fn : ModelFn) (now userId : Int) (text role t : String)
    (hfail : d.failing = true)
    (hm : fn (systemPrompt defaultPersona defaultUserInfo role)
        [{ role := "user", text := text }] = Except.ok t) :
    generateAIResponse (some fn) (some d) now userId text role =
      (t, [Ev.fetchCtx userId (cutoffOf now), Ev.insertTurn userId "user" text,
           Ev.modelCall (systemPrompt defaultPersona defaultUserInfo role)
             [{ role := "user", text := text }],
           Ev.insertTurn userId "model" t, Ev.deleteOld userId (cutoffOf now)]) := by
  simp only [generateAIResponse, fetchContext_failing d hfail, buildContents_nil, hm]
  rfl

/-- C5: when every persistence call fails, the reply delivered to the
user is exactly the text the model produced — delivery still happens,
with that text unchanged, and no persistence failure aborts the
pipeline or reaches the user. -/
theorem persistence_failure_isolation (d : Db) (fn : ModelFn) (ownerId now : Int)
    (ctx : MsgCtx) (t : String)
    (hfail : d.failing = true) (hg : gatePasses ctx)
    (hm : fn (systemPrompt defaultPersona defaultUserInfo
        (if ctx.fromId = ownerId then "owner" else "member"))
        [{ role := "user", text := textOf ctx }] = Except.ok t)
    (ht : t ≠ "") :
    Ev.deliver t ∈ handleText ownerId (some fn) (some d) now ctx ∧
    ∀ s, Ev.deliver s ∈ handleText ownerId (some fn) (some d) now ctx → s = t := by
  rw [handleText_cons_of_gate _ _ _ _ _ hg]
  have hsel : selGroup d ctx.chatId = none := by simp [selGroup, hfail]
  have husr : selUser d ctx.fromId = none := by simp [selUser, hfail]
  have hbt : backgroundTask ownerId (some fn) (some d) now ctx =
      Ev.insertGroup ctx.chatId :: Ev.insertUser ctx.fromId (usernameOf ctx) ::
        (Ev.fetchCtx ctx.fromId (cutoffOf now) ::
         Ev.insertTurn ctx.fromId "user" (textOf ctx) ::
         Ev.modelCall (systemPrompt defaultPersona defaultUserInfo
             (if ctx.fromId = ownerId then "owner" else "member"))
           [{ role := "user", text := textOf ctx }] ::
         Ev.insertTurn ctx.fromId "model" t :: Ev.deleteOld ctx.fromId (cutoffOf now) ::
         [Ev.deliver t, Ev.insertLog ctx.fromId ctx.chatId (textOf ctx)]) := by
    simp [backgroundTask, hsel, husr,
      gen_failing d fn now ctx.fromId (textOf ctx) _ t hfail hm, ht]
  rw [hbt]
  constructor
  · simp
  · intro s hs
    simp at hs
    exact hs

theorem persistence_failure_isolation_witness :
    Ev.deliver "TARGET ACQUIRED" ∈ handleText 1 (some fnOK) (some dbFail) 0 ctxGroup :=
  (persistence_failure_isolation dbFail fnOK 1 0 ctxGroup "TARGET ACQUIRED" rfl
    (by decide) rfl (by decide)).1

lemma gen_none_db_modelCall (fn : ModelFn) (now userId : Int) (text role : String) :
    Ev.modelCall (systemPrompt defaultPersona defaultUserInfo role)
      [{ role := "user", text := text }] ∈
      (generateAIResponse (some fn) none now userId text role).2 := by
  simp only [generateAIResponse, fetchContext, buildContents_nil]
  split
  · simp
  · simp

/-- C6: with no persistence client configured, the Context Fetcher
deterministically returns empty history, the default persona, and the
default user info, and the pipeline still proceeds to invoke the model
for a reply. -/
theorem context_fetcher_defaults (userId cutoff ownerId now : Int) (fn : ModelFn)
    (ctx : MsgCtx) (hg : gatePasses ctx) :
    fetchContext none userId cutoff = ([], defaultPersona, defaultUserInfo) ∧
    ∃ p c, Ev.modelCall p c ∈ handleText ownerId (some fn) none now ctx := by
  refine ⟨rfl, ?_⟩
  rw [handleText_cons_of_gate _ _ _ _ _ hg]
  have hbt : Ev.modelCall (systemPrompt defaultPersona defaultUserInfo
      (if ctx.fromId = ownerId then "owner" else "member"))
      [{ role := "user", text := textOf ctx }] ∈
      backgroundTask ownerId (some fn) none now ctx := by
    simp only [backgroundTask]
    exact List.mem_append_left _
      (gen_none_db_modelCall fn now ctx.fromId (textOf ctx)
        (if ctx.fromId = ownerId then "owner" else "member"))
  exact ⟨_, _, List.mem_cons_of_mem _ hbt⟩

theorem context_fetcher_defaults_witness :
    fetchContext none 5 0 = ([], defaultPersona, defaultUserInfo) ∧
    ∃ p c, Ev.modelCall p c ∈ handleText 1 (some fnOK) none 0 ctxGroup :=
  context_fetcher_defaults 5 0 1 0 fnOK ctxGroup (by decide)

lemma gen_some_db_modelCall (fn : ModelFn) (d : Db) (now userId : Int)
    (text role : String) :
    ∃ p c, Ev.modelCall p c ∈ (generateAIResponse (some fn) (some d) now userId text role).2 := by
  simp only [generateAIResponse]
  split
  · exact ⟨systemPrompt (fetchContext (some d) userId (cutoffOf now)).2.1
        (fetchContext (some d) userId (cutoffOf now)).2.2 role,
      buildContents (fetchContext (some d) userId (cutoffOf now)).1 text, by simp⟩
  · exact ⟨systemPrompt (fetchContext (some d) userId (cutoffOf now)).2.1
        (fetchContext (some d) userId (cutoffOf now)).2.2 role,
      buildContents (fetchContext (some d) userId (cutoffOf now)).1 text, by simp⟩

/-- C9: with a configured persistence layer, a stored GroupConfig with
ai_mode = 0 makes the triggered pipeline terminate with no model call,
no reply, and no persistence beyond the typing action, even though the
trigger word was present; a missing GroupConfig record, or any other
ai_mode value, leaves the pipeline enabled (the model is invoked). -/
theorem group_opt_out (d : Db) (fn : ModelFn) (ownerId now : Int) (ctx : MsgCtx)
    (hg : gatePasses ctx) :
    (∀ g, selGroup d ctx.chatId = some g → g.ai_mode = some 0 →
        handleText ownerId (some fn) (some d) now ctx = [Ev.typing]) ∧
    ((selGroup d ctx.chatId = none ∨
        ∃ g, selGroup d ctx.chatId = some g ∧ g.ai_mode ≠ some 0) →
      ∃ p c, Ev.modelCall p c ∈ handleText ownerId (some fn) (some d) now ctx) := by
  rw [handleText_cons_of_gate _ _ _ _ _ hg]
  constructor
  · intro g hsel hmode
    simp [backgroundTask, hsel, hmode]
  · intro hcase
    obtain ⟨p, c, hpc⟩ :=
      gen_some_db_modelCall fn d now ctx.fromId (textOf ctx)
        (if ctx.fromId = ownerId then "owner" else "member")
    refine ⟨p, c, List.mem_cons_of_mem _ ?_⟩
    rcases hcase with hnone | ⟨g, hsel, hmode⟩
    · simp only [backgroundTask, hnone]
      exact List.mem_cons_of_mem _ (List.mem_append_right _ (List.mem_append_left _ hpc))
    · simp only [backgroundTask, hsel, if_neg hmode]
      exact List.mem_append_right _ (List.mem_append_left _ hpc)

theorem group_opt_out_witness :
    handleText 1 (some fnOK) (some dbOptOut) 0 ctxGroup = [Ev.typing] :=
  (group_opt_out dbOptOut fnOK 1 0 ctxGroup (by decide)).1
    { group_id := -100, ai_mode := some 0 } rfl rfl

/-- C7: the 7-day cutoff is a single timestamp computed once per
operation, the history fetch keeps exactly the rows of this user whose
created_at is ≥ the cutoff, the deletion sweep removes exactly the rows
of this user whose created_at is < the cutoff, a row exactly at the
cutoff is fetched and is not deleted, and within one generation the
fetch and the delete carry the identical cutoff value. -/
theorem retention_cutoff (d : Db) (userId cutoff : Int) (r : StoredTurn) (now : Int) :
    (r ∈ memRows d userId cutoff ↔
      r ∈ d.chat_memory ∧ r.user_id = userId ∧ cutoff ≤ r.created_at) ∧
    (r ∈ deletedRows d userId cutoff ↔
      r ∈ d.chat_memory ∧ r.user_id = userId ∧ r.created_at < cutoff) ∧
    (r ∈ d.chat_memory → r.user_id = userId → r.created_at = cutoff →
      r ∈ memRows d userId cutoff ∧ r ∉ deletedRows d userId cutoff) ∧
    (∀ (model : Option ModelFn) (text role : String) (u c u2 c2 : Int),
      Ev.fetchCtx u c ∈ (generateAIResponse model (some d) now userId text role).2 →
      Ev.deleteOld u2 c2 ∈ (generateAIResponse model (some d) now userId text role).2 →
      c = c2) := by
  have ha : r ∈ memRows d userId cutoff ↔
      r ∈ d.chat_memory ∧ r.user_id = userId ∧ cutoff ≤ r.created_at := by
    simp [memRows, List.mem_mergeSort, List.mem_filter]
  have hb : r ∈ deletedRows d userId cutoff ↔
      r ∈ d.chat_memory ∧ r.user_id = userId ∧ r.created_at < cutoff := by
    simp [deletedRows, List.mem_filter]
    tauto
  refine ⟨ha, hb, ?_, ?_⟩
  · intro h1 h2 h3
    refine ⟨ha.mpr ⟨h1, h2, le_of_eq h3.symm⟩, fun hdel => ?_⟩
    exact absurd (hb.mp hdel).2.2 (by simp [h3])
  · intro model text role u c u2 c2 hf hd
    rcases model with - | fn
    · simp [generateAIResponse] at hf
    · simp only [generateAIResponse] at hf hd
      split at hf
      · rename_i heq
        simp only [heq] at hd
        simp at hf hd
        exact hf.2.trans hd.2.symm
      · rename_i heq
        simp only [heq] at hd
        simp at hd

theorem retention_cutoff_witness :
    turn0 ∈ memRows dbRet 5 100 ∧ turn0 ∉ deletedRows dbRet 5 100 :=
  (retention_cutoff dbRet 5 100 turn0 0).2.2.1 (by decide) rfl rfl

end Terminator
